import Mathlib

/-! # autotls: generation of a self-signed certificate

Shallow embedding of `src/autotls.go`.  The package has one function,
`GenerateSelfSignedCert`, which resolves two defaults, parses the IP strings,
asks the standard library for an RSA key, fills an `x509.Certificate`
template and has it signed.

The Go standard library is not part of the repository.  Its pure function
`net.ParseIP` and its two fallible primitives `rsa.GenerateKey` and
`x509.CreateCertificate` are parameters of the model (`Env`); the state they
read (the random source behind `rand.Reader`, the system clock) is carried in
an explicit `World`, which also records every primitive call together with
what it returned.  The package variable `DefaultIPs` is exported and mutable,
so its current value is part of the `World` too; `DefaultCommonName` is a
constant.
-/

set_option linter.dupNamespace false

namespace autotls

/-! ## Data model -/

/-- Go `error` value: the message of the failure. -/
structure Error where
  msg : String
  deriving DecidableEq, Repr

/-- Result of a Go call returning `(T, error)`: `ok v` stands for `(v, nil)` and
`err e` for `(zero value, e)`. -/
inductive Res (α : Type) where
  | ok (v : α)
  | err (e : Error)
  deriving DecidableEq, Repr

namespace net

/-- Go `net.IP` is a byte slice.  `none` is the nil slice that `net.ParseIP`
returns for a string that is not an IP literal, `some bs` an address with
bytes `bs`. -/
abbrev IP := Option (List Nat)

end net

namespace time

/-- Go `time.Time`, as the instant in nanoseconds since a fixed epoch. -/
abbrev Time := Int

/-- Go `time.Duration`, a count of nanoseconds. -/
abbrev Duration := Int

/-- Go `time.Nanosecond`. -/
def Nanosecond : Duration := 1

/-- Go `time.Microsecond`. -/
def Microsecond : Duration := 1000 * Nanosecond

/-- Go `time.Millisecond`. -/
def Millisecond : Duration := 1000 * Microsecond

/-- Go `time.Second`. -/
def Second : Duration := 1000 * Millisecond

/-- Go `time.Minute`. -/
def Minute : Duration := 60 * Second

/-- Go `time.Hour`. -/
def Hour : Duration := 60 * Minute

/-- Go `Time.Add`. -/
def Time.Add (t : Time) (d : Duration) : Time := t + d

/-- Go `Time.Sub`. -/
def Time.Sub (t u : Time) : Duration := t - u

end time

namespace pkix

/-- Go `pkix.Name`; the function sets `CommonName` only, every other field
keeps its zero value. -/
structure Name where
  CommonName : String
  deriving DecidableEq, Repr

end pkix

namespace rsa

/-- Go `rsa.PublicKey`. -/
structure PublicKey where
  N : Nat
  E : Nat
  deriving DecidableEq, Repr

/-- Go `rsa.PrivateKey`: the public half is an embedded field. -/
structure PrivateKey where
  PublicKey : PublicKey
  D : Nat
  Primes : List Nat
  deriving DecidableEq, Repr

end rsa

namespace x509

/-- Go `x509.KeyUsage`, a bit set held in an int. -/
abbrev KeyUsage := Nat

/-- Go `x509.KeyUsageDigitalSignature`, `1 << 0`. -/
def KeyUsageDigitalSignature : KeyUsage := 1 <<< 0

/-- Go `x509.KeyUsageContentCommitment`, `1 << 1`. -/
def KeyUsageContentCommitment : KeyUsage := 1 <<< 1

/-- Go `x509.KeyUsageKeyEncipherment`, `1 << 2`. -/
def KeyUsageKeyEncipherment : KeyUsage := 1 <<< 2

/-- Go `x509.KeyUsageDataEncipherment`, `1 << 3`. -/
def KeyUsageDataEncipherment : KeyUsage := 1 <<< 3

/-- Go `x509.KeyUsageKeyAgreement`, `1 << 4`. -/
def KeyUsageKeyAgreement : KeyUsage := 1 <<< 4

/-- Go `x509.KeyUsageCertSign`, `1 << 5`. -/
def KeyUsageCertSign : KeyUsage := 1 <<< 5

/-- Go `x509.KeyUsageCRLSign`, `1 << 6`. -/
def KeyUsageCRLSign : KeyUsage := 1 <<< 6

/-- Go `x509.KeyUsageEncipherOnly`, `1 << 7`. -/
def KeyUsageEncipherOnly : KeyUsage := 1 <<< 7

/-- Go `x509.KeyUsageDecipherOnly`, `1 << 8`. -/
def KeyUsageDecipherOnly : KeyUsage := 1 <<< 8

/-- Go `x509.ExtKeyUsage`, in the order of the standard library's enumeration. -/
inductive ExtKeyUsage where
  | ExtKeyUsageAny
  | ExtKeyUsageServerAuth
  | ExtKeyUsageClientAuth
  | ExtKeyUsageCodeSigning
  | ExtKeyUsageEmailProtection
  | ExtKeyUsageIPSECEndSystem
  | ExtKeyUsageIPSECTunnel
  | ExtKeyUsageIPSECUser
  | ExtKeyUsageTimeStamping
  | ExtKeyUsageOCSPSigning
  | ExtKeyUsageMicrosoftServerGatedCrypto
  | ExtKeyUsageNetscapeServerGatedCrypto
  | ExtKeyUsageMicrosoftCommercialCodeSigning
  | ExtKeyUsageMicrosoftKernelCodeSigning
  deriving DecidableEq, Repr

export ExtKeyUsage (ExtKeyUsageServerAuth)

/-- Go `x509.Certificate`, restricted to the fields the template sets; every
other field of the template keeps its zero value. -/
structure Certificate where
  SerialNumber : Int
  Subject : pkix.Name
  NotBefore : time.Time
  NotAfter : time.Time
  KeyUsage : KeyUsage
  ExtKeyUsage : List ExtKeyUsage
  IPAddresses : List net.IP
  deriving DecidableEq, Repr

end x509

namespace tls

/-- Go `tls.Certificate`, restricted to the two fields the function sets:
the chain of encoded certificates and the private key (`none` is nil). -/
structure Certificate where
  Certificate : List (List Nat)
  PrivateKey : Option rsa.PrivateKey
  deriving DecidableEq, Repr

end tls

/-! ## Environment and world -/

/-- State of the random source behind `rand.Reader`. -/
abbrev Reader := Nat

/-- The standard-library functions the package calls.  `GenerateKey` and
`CreateCertificate` read the random source and leave it in a new state. -/
structure Env where
  ParseIP : String → net.IP
  GenerateKey : Reader → Nat → Res rsa.PrivateKey × Reader
  CreateCertificate : Reader → x509.Certificate → x509.Certificate →
    rsa.PublicKey → rsa.PrivateKey → Res (List Nat) × Reader

/-- One call of a primitive, with its arguments and what it returned. -/
inductive Event where
  | GenerateKey (bits : Nat) (res : Res rsa.PrivateKey)
  | Now (t : time.Time)
  | CreateCertificate (template parent : x509.Certificate) (pub : rsa.PublicKey)
      (priv : rsa.PrivateKey) (res : Res (List Nat))
  deriving DecidableEq, Repr

/-- What the function reads and changes outside its arguments: the state of
the random source, the instants the clock returns at its successive reads from
now on (`clock 0` is the next read), the primitive calls made so far, and the
current value of the package variable `DefaultIPs`, which is exported and can
be assigned by any importing package. -/
structure World where
  reader : Reader
  clock : Nat → time.Time
  events : List Event
  DefaultIPs : List String

namespace rsa

/-- Go `rsa.GenerateKey(rand.Reader, bits)`. -/
def GenerateKey (env : Env) (bits : Nat) (w : World) : Res PrivateKey × World :=
  let r := env.GenerateKey w.reader bits
  (r.1, { w with reader := r.2, events := w.events ++ [Event.GenerateKey bits r.1] })

end rsa

namespace time

/-- Go `time.Now()`: the next instant of the clock. -/
def Now (w : World) : Time × World :=
  (w.clock 0,
   { w with clock := fun n => w.clock (n + 1), events := w.events ++ [Event.Now (w.clock 0)] })

end time

namespace x509

/-- Go `x509.CreateCertificate(rand.Reader, template, parent, pub, priv)`. -/
def CreateCertificate (env : Env) (template parent : Certificate) (pub : rsa.PublicKey)
    (priv : rsa.PrivateKey) (w : World) : Res (List Nat) × World :=
  let r := env.CreateCertificate w.reader template parent pub priv
  (r.1, { w with reader := r.2,
                 events := w.events ++ [Event.CreateCertificate template parent pub priv r.1] })

end x509

/-! ## The package -/

/-- Go constant `DefaultCommonName`. -/
def DefaultCommonName : String := "localhost"

/-- The value the Go variable `DefaultIPs` is initialised with.  The variable
itself is the field `World.DefaultIPs`. -/
def DefaultIPsInit : List String := ["127.0.0.1", "::1"]

/-- The loop `for i, ip := range ips { ipsStr[i] = net.ParseIP(ip) }`: `rest` is
what is left of `ips`, `i` the index of its head and `ipsStr` the slice being
filled. -/
def parseLoop (env : Env) : List String → Nat → List net.IP → List net.IP
  | [], _, ipsStr => ipsStr
  | ip :: rest, i, ipsStr => parseLoop env rest (i + 1) (ipsStr.set i (env.ParseIP ip))

/-- Go `GenerateSelfSignedCert(commonName, ips)`.  The result is the returned
pair `(tls.Certificate, error)`, with `none` for a nil error, and the world
after the call. -/
def GenerateSelfSignedCert (env : Env) (commonName : String) (ips : List String) (w : World) :
    (tls.Certificate × Option Error) × World :=
  let ips := if ips.length = 0 then w.DefaultIPs else ips
  let commonName := if commonName = "" then DefaultCommonName else commonName
  let ipsStr := parseLoop env ips 0 (List.replicate ips.length none)
  match rsa.GenerateKey env 2048 w with
  | (Res.err err, w1) => (({ Certificate := [], PrivateKey := none }, some err), w1)
  | (Res.ok privateKey, w1) =>
    let now1 := time.Now w1
    let now2 := time.Now now1.2
    let template : x509.Certificate :=
      { SerialNumber := 1
        Subject := { CommonName := commonName }
        NotBefore := now1.1
        NotAfter := time.Time.Add now2.1 (24 * time.Hour)
        KeyUsage := x509.KeyUsageKeyEncipherment ||| x509.KeyUsageDigitalSignature
        ExtKeyUsage := [x509.ExtKeyUsageServerAuth]
        IPAddresses := ipsStr }
    match x509.CreateCertificate env template template privateKey.PublicKey privateKey now2.2 with
    | (Res.err err, w4) => (({ Certificate := [], PrivateKey := none }, some err), w4)
    | (Res.ok certBytes, w4) =>
      (({ Certificate := [certBytes], PrivateKey := some privateKey }, none), w4)

/-! ## Observations of one call -/

/-- The returned pair `(tls.Certificate, error)` of one call. -/
def result (env : Env) (commonName : String) (ips : List String) (w : World) :
    tls.Certificate × Option Error :=
  (GenerateSelfSignedCert env commonName ips w).1

/-- The primitive calls made by one call, in the order they were made. -/
def trace (env : Env) (commonName : String) (ips : List String) (w : World) : List Event :=
  ((GenerateSelfSignedCert env commonName ips w).2.events).drop w.events.length

/-- The template argument of a `CreateCertificate` call. -/
def Event.template? : Event → Option x509.Certificate
  | Event.CreateCertificate template _ _ _ _ => some template
  | _ => none

/-- The error a primitive call returned, if it failed. -/
def Event.failure? : Event → Option Error
  | Event.GenerateKey _ (Res.err e) => some e
  | Event.CreateCertificate _ _ _ _ (Res.err e) => some e
  | _ => none

/-- The template that one call hands to `x509.CreateCertificate`; `none` when
the call never reaches certificate creation. -/
def signedTemplate (env : Env) (commonName : String) (ips : List String) (w : World) :
    Option x509.Certificate :=
  (trace env commonName ips w).findSome? Event.template?

/-- The instant the clock shows when the call has returned: the caller's next
clock read. -/
def returnInstant (env : Env) (commonName : String) (ips : List String) (w : World) : time.Time :=
  (GenerateSelfSignedCert env commonName ips w).2.clock 0

/-- The template the function fills once a key is there, as a function of the
value of `DefaultIPs` at the call, of the arguments and of the two instants read
from the clock. -/
def templateFor (env : Env) (defaultIPs : List String) (commonName : String)
    (ips : List String) (t1 t2 : time.Time) : x509.Certificate :=
  { SerialNumber := 1
    Subject := { CommonName := if commonName = "" then DefaultCommonName else commonName }
    NotBefore := t1
    NotAfter := t2 + 24 * time.Hour
    KeyUsage := x509.KeyUsageKeyEncipherment ||| x509.KeyUsageDigitalSignature
    ExtKeyUsage := [x509.ExtKeyUsageServerAuth]
    IPAddresses := (if ips = [] then defaultIPs else ips).map env.ParseIP }

/-! ## A concrete environment

Used to evaluate the definitions on concrete inputs. -/

/-- A finite fragment of `net.ParseIP`: the four literals of the package and of
its tests, in the 16-byte form the standard library returns; any other string
is taken as malformed. -/
def demoParseIP (s : String) : net.IP :=
  if s = "127.0.0.1" then some [0, 0, 0, 0, 0, 0, 0, 0, 0, 0, 255, 255, 127, 0, 0, 1]
  else if s = "::1" then some [0, 0, 0, 0, 0, 0, 0, 0, 0, 0, 0, 0, 0, 0, 0, 1]
  else if s = "192.168.1.1" then some [0, 0, 0, 0, 0, 0, 0, 0, 0, 0, 255, 255, 192, 168, 1, 1]
  else if s = "10.0.0.1" then some [0, 0, 0, 0, 0, 0, 0, 0, 0, 0, 255, 255, 10, 0, 0, 1]
  else none

/-- A fixed key standing for the one the random source yields. -/
def demoKey : rsa.PrivateKey :=
  { PublicKey := { N := 3233, E := 65537 }, D := 2753, Primes := [61, 53] }

/-- An environment whose random source decides the outcome: from state 0 key
generation fails, from state 1 key generation succeeds and certificate creation
fails, from any other state both succeed. -/
def demoEnv : Env :=
  { ParseIP := demoParseIP
    GenerateKey := fun r _ =>
      if r = 0 then (Res.err { msg := "rsa: entropy source failed" }, r) else (Res.ok demoKey, r +
        1)
    CreateCertificate := fun r _ _ _ _ =>
      if r = 2 then (Res.err { msg := "x509: signing failed" }, r) else (Res.ok [48, 130, 3, 9], r
        + 1) }

/-- A clock that advances by one microsecond between two reads. -/
def tickingClock (n : Nat) : time.Time := 1000 * n

/-- A non-decreasing clock whose third read comes more than a day after the
first two. -/
def stalledClock (n : Nat) : time.Time := if n < 2 then 0 else 24 * time.Hour + 1

/-- A world with the given state of the random source and clock, before any
primitive call, in which `DefaultIPs` still has its initial value. -/
def demoWorld (reader : Reader) (clock : Nat → time.Time) : World :=
  { reader := reader, clock := clock, events := [], DefaultIPs := DefaultIPsInit }

/-- A world in which an importing package has assigned the one-element slice
holding "10.0.0.1" to `autotls.DefaultIPs` before the call. -/
def reassignedWorld : World :=
  { reader := 3, clock := tickingClock, events := [], DefaultIPs := ["10.0.0.1"] }

/-! ## The parsing loop -/

/-- Loop invariant of the parsing loop: once the entries before `i` are
written, running the loop over the remaining strings fills the remaining
nil entries with their parsed addresses and leaves the written part alone. -/
theorem parseLoop_append (env : Env) (rest : List String) (done : List net.IP) :
    parseLoop env rest done.length (done ++ List.replicate rest.length none)
      = done ++ rest.map env.ParseIP := by
  induction rest generalizing done with
  | nil => simp [parseLoop]
  | cons ip rest ih =>
    have h := ih (done ++ [env.ParseIP ip])
    simp only [List.length_append, List.length_singleton, List.append_assoc,
      List.singleton_append] at h
    simp [parseLoop, List.replicate_succ, h]

/-- The slice built by `make` and the loop holds, entry by entry, the parsed
address of each string. -/
theorem parseLoop_eq_map (env : Env) (ips : List String) :
    parseLoop env ips 0 (List.replicate ips.length none) = ips.map env.ParseIP := by
  simpa using parseLoop_append env ips []

/-! ## One call, case by case -/

/-- The strings that are parsed: the argument, or the defaults when it is empty. -/
theorem length_eq_zero_ite (defaultIPs ips : List String) :
    (if ips.length = 0 then defaultIPs else ips) = if ips = [] then defaultIPs else ips := by
  cases ips <;> simp

/-- When key generation fails, the call returns its error with the empty
bundle after that single primitive call. -/
theorem run_keygen_err (env : Env) (commonName : String) (ips : List String) (w : World)
    (e : Error) (h : (env.GenerateKey w.reader 2048).1 = Res.err e) :
    result env commonName ips w = ({ Certificate := [], PrivateKey := none }, some e) ∧
    trace env commonName ips w = [Event.GenerateKey 2048 (Res.err e)] ∧
    returnInstant env commonName ips w = w.clock 0 := by
  simp [result, trace, returnInstant, GenerateSelfSignedCert, rsa.GenerateKey, h]

/-- When key generation succeeds, the call reads the clock twice and then makes
one certificate-creation call on the template; its outcome decides the result. -/
theorem run_keygen_ok (env : Env) (commonName : String) (ips : List String) (w : World)
    (key : rsa.PrivateKey) (h : (env.GenerateKey w.reader 2048).1 = Res.ok key) :
    ∃ res : Res (List Nat),
      trace env commonName ips w =
        [Event.GenerateKey 2048 (Res.ok key), Event.Now (w.clock 0), Event.Now (w.clock 1),
         Event.CreateCertificate (templateFor env w.DefaultIPs commonName ips (w.clock 0) (w.clock
           1))
           (templateFor env w.DefaultIPs commonName ips (w.clock 0) (w.clock 1)) key.PublicKey key
             res] ∧
      result env commonName ips w =
        (match res with
         | Res.err e => ({ Certificate := [], PrivateKey := none }, some e)
         | Res.ok certBytes => ({ Certificate := [certBytes], PrivateKey := some key }, none)) ∧
      returnInstant env commonName ips w = w.clock 2 := by
  refine ⟨(env.CreateCertificate (env.GenerateKey w.reader 2048).2
    (templateFor env w.DefaultIPs commonName ips (w.clock 0) (w.clock 1))
    (templateFor env w.DefaultIPs commonName ips (w.clock 0) (w.clock 1)) key.PublicKey key).1, ?_⟩
  cases hres : (env.CreateCertificate (env.GenerateKey w.reader 2048).2
    (templateFor env w.DefaultIPs commonName ips (w.clock 0) (w.clock 1))
    (templateFor env w.DefaultIPs commonName ips (w.clock 0) (w.clock 1)) key.PublicKey key).1 <;>
  simp [result, trace, returnInstant, GenerateSelfSignedCert, rsa.GenerateKey, time.Now,
    x509.CreateCertificate, time.Time.Add, h, parseLoop_eq_map, length_eq_zero_ite,
    templateFor] at hres ⊢ <;>
  simp [hres]

/-- The template handed to certificate creation is the one filled from the
arguments and the first two instants of the clock. -/
theorem signedTemplate_eq (env : Env) (commonName : String) (ips : List String) (w : World)
    (t : x509.Certificate) (h : signedTemplate env commonName ips w = some t) :
    t = templateFor env w.DefaultIPs commonName ips (w.clock 0) (w.clock 1) := by
  cases hk : (env.GenerateKey w.reader 2048).1 with
  | err e =>
    have ht := (run_keygen_err env commonName ips w e hk).2.1
    simp [signedTemplate, ht, Event.template?] at h
  | ok key =>
    obtain ⟨res, ht, -, -⟩ := run_keygen_ok env commonName ips w key hk
    simp [signedTemplate, ht, Event.template?] at h
    exact h.symm

/-- Once key generation succeeds, a template is handed to certificate creation. -/
theorem signedTemplate_of_keygen_ok (env : Env) (commonName : String) (ips : List String)
    (w : World) (key : rsa.PrivateKey) (hk : (env.GenerateKey w.reader 2048).1 = Res.ok key) :
    signedTemplate env commonName ips w
      = some (templateFor env w.DefaultIPs commonName ips (w.clock 0) (w.clock 1)) := by
  obtain ⟨res, ht, -, -⟩ := run_keygen_ok env commonName ips w key hk
  simp [signedTemplate, ht, Event.template?]

/-- The instant of return of a call that got past key generation is the third
instant of the clock. -/
theorem returnInstant_of_signed (env : Env) (commonName : String) (ips : List String)
    (w : World) (t : x509.Certificate) (h : signedTemplate env commonName ips w = some t) :
    returnInstant env commonName ips w = w.clock 2 := by
  cases hk : (env.GenerateKey w.reader 2048).1 with
  | err e =>
    have ht := (run_keygen_err env commonName ips w e hk).2.1
    simp [signedTemplate, ht, Event.template?] at h
  | ok key =>
    obtain ⟨res, -, -, hr⟩ := run_keygen_ok env commonName ips w key hk
    exact hr

/-- The bits of the number five are bit 0 and bit 2. -/
theorem testBit_five (i : Nat) : Nat.testBit 5 i = true ↔ (i = 0 ∨ i = 2) := by
  rcases i with _ | _ | _ | n
  · decide
  · decide
  · decide
  · have h : 5 < 2 ^ (n + 3) :=
      calc 5 < 2 ^ 3 := by decide
        _ ≤ 2 ^ (n + 3) := Nat.pow_le_pow_right (by decide) (by omega)
    simp [Nat.testBit_lt_two_pow h]

/-- Twenty-four hours, in nanoseconds. -/
theorem day_eq : 24 * time.Hour = 86400000000000 := by decide

/-- A call that returns no error got a key from key generation. -/
theorem keygen_ok_of_success (env : Env) (commonName : String) (ips : List String) (w : World)
    (hok : (result env commonName ips w).2 = none) :
    ∃ key, (env.GenerateKey w.reader 2048).1 = Res.ok key := by
  cases hk : (env.GenerateKey w.reader 2048).1 with
  | err e =>
    have hr := (run_keygen_err env commonName ips w e hk).1
    simp [hr] at hok
  | ok key => exact ⟨key, rfl⟩

/-! ## The template -/

/-- C1: the subject common name of the template that is signed is
"localhost", the value of `DefaultCommonName`, when `commonName` is the empty
string, and `commonName` itself when it is not empty, whatever `ips` is. -/
theorem template_common_name (env : Env) (commonName : String) (ips : List String) (w : World)
    (t : x509.Certificate) (h : signedTemplate env commonName ips w = some t) :
    DefaultCommonName = "localhost" ∧
    (commonName = "" → t.Subject.CommonName = "localhost") ∧
    (commonName ≠ "" → t.Subject.CommonName = commonName) := by
  have ht := signedTemplate_eq env commonName ips w t h
  subst ht
  refine ⟨rfl, fun hc => ?_, fun hc => ?_⟩
  · simp [templateFor, hc, DefaultCommonName]
  · simp [templateFor, hc]

/-- C1 at `GenerateSelfSignedCert("", ["10.0.0.1"])`: the common name is the default. -/
theorem template_common_name_witness :
    signedTemplate demoEnv "" ["10.0.0.1"] (demoWorld 3 tickingClock)
      = some (templateFor demoEnv DefaultIPsInit "" ["10.0.0.1"] 0 1000) ∧
    (templateFor demoEnv DefaultIPsInit "" ["10.0.0.1"] 0 1000).Subject.CommonName = "localhost" :=
  ⟨by decide,
   (template_common_name demoEnv "" ["10.0.0.1"] (demoWorld 3 tickingClock)
      (templateFor demoEnv DefaultIPsInit "" ["10.0.0.1"] 0 1000) (by decide)).2.1 rfl⟩

/-- C2, as the claim states it, fails: `DefaultIPs` is an exported variable, and
once an importing package has assigned `["10.0.0.1"]` to it,
`GenerateSelfSignedCert("", [])` signs a template whose IP list is the one
address parsed from "10.0.0.1", not the two loopback addresses. -/
theorem default_ips_reassigned :
    ([] : List String).length = 0 ∧
    ∃ t, signedTemplate demoEnv "" [] reassignedWorld = some t ∧
      t.IPAddresses = [demoEnv.ParseIP "10.0.0.1"] ∧
      t.IPAddresses ≠ [demoEnv.ParseIP "127.0.0.1", demoEnv.ParseIP "::1"] :=
  ⟨by decide, templateFor demoEnv ["10.0.0.1"] "" [] 0 1000, by decide, by decide, by decide⟩

/-- C2, amended: for an empty `ips` the IP list of the template holds, in
order, the parsed strings of the variable `DefaultIPs` as it stands at the
call, and nothing else; while the variable has the value it is initialised
with, that is the parsed "127.0.0.1" followed by the parsed "::1". -/
theorem template_default_ips (env : Env) (commonName : String) (ips : List String) (w : World)
    (t : x509.Certificate) (hips : ips.length = 0)
    (h : signedTemplate env commonName ips w = some t) :
    t.IPAddresses.length = w.DefaultIPs.length ∧
    (∀ (i : Nat) (hi : i < w.DefaultIPs.length),
      t.IPAddresses[i]? = some (env.ParseIP w.DefaultIPs[i])) ∧
    DefaultIPsInit = ["127.0.0.1", "::1"] ∧
    (w.DefaultIPs = DefaultIPsInit →
      t.IPAddresses = [env.ParseIP "127.0.0.1", env.ParseIP "::1"]) := by
  have ht := signedTemplate_eq env commonName ips w t h
  subst ht
  have hnil : ips = [] := List.length_eq_zero.mp hips
  refine ⟨by simp [templateFor, hnil], fun i hi => ?_, rfl, fun hd => ?_⟩
  · simp [templateFor, hnil, List.getElem?_eq_getElem hi]
  · simp [templateFor, hnil, hd, DefaultIPsInit]

/-- C2 amended, at `GenerateSelfSignedCert("example.com", [])` with `DefaultIPs`
at its initial value. -/
theorem template_default_ips_witness :
    signedTemplate demoEnv "example.com" [] (demoWorld 3 tickingClock)
      = some (templateFor demoEnv DefaultIPsInit "example.com" [] 0 1000) ∧
    (templateFor demoEnv DefaultIPsInit "example.com" [] 0 1000).IPAddresses
      = [some [0, 0, 0, 0, 0, 0, 0, 0, 0, 0, 255, 255, 127, 0, 0, 1],
         some [0, 0, 0, 0, 0, 0, 0, 0, 0, 0, 0, 0, 0, 0, 0, 1]] :=
  ⟨by decide,
   (template_default_ips demoEnv "example.com" [] (demoWorld 3 tickingClock)
     (templateFor demoEnv DefaultIPsInit "example.com" [] 0 1000) (by decide) (by decide)).2.2.2
     (by decide)⟩

/-- C3: for a non-empty `ips` of valid literals the IP list of the template
has the length of `ips` and its i-th entry is the address parsed from the i-th
string: same order, same count, no default added. -/
theorem template_valid_ips (env : Env) (commonName : String) (ips : List String) (w : World)
    (t : x509.Certificate) (hne : ips ≠ [])
    (hvalid : ∀ s ∈ ips, (env.ParseIP s).isSome = true)
    (h : signedTemplate env commonName ips w = some t) :
    t.IPAddresses.length = ips.length ∧
    ∀ (i : Nat) (hi : i < ips.length),
      ∃ addr, env.ParseIP ips[i] = some addr ∧ t.IPAddresses[i]? = some (some addr) := by
  have ht := signedTemplate_eq env commonName ips w t h
  subst ht
  refine ⟨by simp [templateFor, hne], fun i hi => ?_⟩
  obtain ⟨addr, haddr⟩ := Option.isSome_iff_exists.mp (hvalid ips[i] (List.getElem_mem hi))
  exact ⟨addr, haddr, by simp [templateFor, hne, List.getElem?_eq_getElem hi, haddr]⟩

/-- C3 at `GenerateSelfSignedCert("example.com", ["192.168.1.1", "10.0.0.1"])`, the
input of the package's test of custom values. -/
theorem template_valid_ips_witness :
    signedTemplate demoEnv "example.com" ["192.168.1.1", "10.0.0.1"] (demoWorld 3 tickingClock)
      = some (templateFor demoEnv DefaultIPsInit "example.com" ["192.168.1.1", "10.0.0.1"] 0 1000) ∧
    (templateFor demoEnv DefaultIPsInit "example.com" ["192.168.1.1", "10.0.0.1"] 0
      1000).IPAddresses.length
      = 2 :=
  ⟨by decide,
   (template_valid_ips demoEnv "example.com" ["192.168.1.1", "10.0.0.1"]
      (demoWorld 3 tickingClock)
      (templateFor demoEnv DefaultIPsInit "example.com" ["192.168.1.1", "10.0.0.1"] 0 1000)
      (by decide) (by decide) (by decide)).1⟩

/-- C6: the key-usage bits of the template are key encipherment or-ed with
digital signature, that is bit 2 and bit 0 and no other bit, and its
extended-key-usage list is the one-element list of server authentication. -/
theorem template_key_usage (env : Env) (commonName : String) (ips : List String) (w : World)
    (t : x509.Certificate) (h : signedTemplate env commonName ips w = some t) :
    t.KeyUsage = x509.KeyUsageKeyEncipherment ||| x509.KeyUsageDigitalSignature ∧
    x509.KeyUsageDigitalSignature = 2 ^ 0 ∧ x509.KeyUsageKeyEncipherment = 2 ^ 2 ∧
    (∀ i : Nat, Nat.testBit t.KeyUsage i = true ↔ (i = 0 ∨ i = 2)) ∧
    t.ExtKeyUsage = [x509.ExtKeyUsage.ExtKeyUsageServerAuth] := by
  have ht := signedTemplate_eq env commonName ips w t h
  subst ht
  refine ⟨rfl, by decide, by decide, fun i => ?_, rfl⟩
  have h5 : (templateFor env w.DefaultIPs commonName ips (w.clock 0) (w.clock 1)).KeyUsage = 5 := by
    simp only [templateFor]
    decide
  rw [h5]
  exact testBit_five i

/-- C6 at `GenerateSelfSignedCert("", [])`, the input of the package's test of
the key usage. -/
theorem template_key_usage_witness :
    signedTemplate demoEnv "" [] (demoWorld 3 tickingClock)
      = some (templateFor demoEnv DefaultIPsInit "" [] 0 1000) ∧
    (templateFor demoEnv DefaultIPsInit "" [] 0 1000).KeyUsage = 5 ∧
    (templateFor demoEnv DefaultIPsInit "" [] 0 1000).ExtKeyUsage =
      [x509.ExtKeyUsage.ExtKeyUsageServerAuth] :=
  ⟨by decide, by decide,
   (template_key_usage demoEnv "" [] (demoWorld 3 tickingClock)
      (templateFor demoEnv DefaultIPsInit "" [] 0 1000) (by decide)).2.2.2.2⟩

/-- C10: the serial number of the template is 1, whatever the arguments, the
clock and the random source are. -/
theorem template_serial_number (env : Env) (commonName : String) (ips : List String) (w : World)
    (t : x509.Certificate) (h : signedTemplate env commonName ips w = some t) :
    t.SerialNumber = 1 := by
  have ht := signedTemplate_eq env commonName ips w t h
  subst ht
  rfl

/-- C10 at `GenerateSelfSignedCert("example.com", ["::1"])` with the random
source in another state and another clock. -/
theorem template_serial_number_witness :
    signedTemplate demoEnv "example.com" ["::1"] (demoWorld 7 stalledClock)
      = some (templateFor demoEnv DefaultIPsInit "example.com" ["::1"] 0 0) ∧
    (templateFor demoEnv DefaultIPsInit "example.com" ["::1"] 0 0).SerialNumber = 1 :=
  ⟨by decide,
   template_serial_number demoEnv "example.com" ["::1"] (demoWorld 7 stalledClock)
     (templateFor demoEnv DefaultIPsInit "example.com" ["::1"] 0 0) (by decide)⟩

/-! ## The validity window -/

/-- C4, as the claim states it, fails: with a clock that advances by a
microsecond between its reads, `GenerateSelfSignedCert("", [])` succeeds and
signs a template whose `NotAfter` is 24 hours and one microsecond after its
`NotBefore`. -/
theorem validity_not_exactly_one_day :
    (result demoEnv "" [] (demoWorld 3 tickingClock)).2 = none ∧
    ∃ t, signedTemplate demoEnv "" [] (demoWorld 3 tickingClock) = some t ∧
      t.NotBefore = 0 ∧ t.NotAfter = 24 * time.Hour + 1000 ∧
      t.NotAfter ≠ time.Time.Add t.NotBefore (24 * time.Hour) ∧
      time.Time.Sub t.NotAfter t.NotBefore ≠ 24 * time.Hour :=
  ⟨by decide, templateFor demoEnv DefaultIPsInit "" [] 0 1000, by decide, by decide, by decide, by
    decide,
   by decide⟩

/-- C4, amended: a successful call signs a template whose `NotBefore` is the
first instant read from the clock and whose `NotAfter` is the second instant
read plus 24 hours, so `NotAfter` minus `NotBefore` is 24 hours plus the time
between the two reads; it is exactly 24 hours when, and only when, both reads
return the same instant. -/
theorem validity_window (env : Env) (commonName : String) (ips : List String) (w : World)
    (hok : (result env commonName ips w).2 = none) :
    ∃ t, signedTemplate env commonName ips w = some t ∧
      t.NotBefore = w.clock 0 ∧
      t.NotAfter = time.Time.Add (w.clock 1) (24 * time.Hour) ∧
      time.Time.Sub t.NotAfter t.NotBefore = 24 * time.Hour + (w.clock 1 - w.clock 0) ∧
      (time.Time.Sub t.NotAfter t.NotBefore = 24 * time.Hour ↔ w.clock 1 = w.clock 0) := by
  obtain ⟨key, hk⟩ := keygen_ok_of_success env commonName ips w hok
  refine ⟨_, signedTemplate_of_keygen_ok env commonName ips w key hk, rfl, rfl, ?_, ?_⟩
  · simp only [templateFor, time.Time.Sub]
    ring
  · simp only [templateFor, time.Time.Sub]
    constructor
    · intro hd
      linarith
    · intro hd
      rw [hd]
      ring

/-- C4 amended, at `GenerateSelfSignedCert("", [])` under the ticking clock. -/
theorem validity_window_witness :
    (result demoEnv "" [] (demoWorld 3 tickingClock)).2 = none ∧
    ∃ t, signedTemplate demoEnv "" [] (demoWorld 3 tickingClock) = some t ∧
      t.NotBefore = tickingClock 0 ∧
      t.NotAfter = time.Time.Add (tickingClock 1) (24 * time.Hour) ∧
      time.Time.Sub t.NotAfter t.NotBefore = 24 * time.Hour + (tickingClock 1 - tickingClock 0) ∧
      (time.Time.Sub t.NotAfter t.NotBefore = 24 * time.Hour ↔ tickingClock 1 = tickingClock 0) :=
  ⟨by decide, validity_window demoEnv "" [] (demoWorld 3 tickingClock) (by decide)⟩

/-- C5, as the claim states it, fails: under a non-decreasing clock whose third
read comes 24 hours and a nanosecond after the second, the call succeeds and
returns at an instant after the `NotAfter` of the template. -/
theorem return_after_window :
    (∀ i j : Nat, i ≤ j → stalledClock i ≤ stalledClock j) ∧
    (result demoEnv "" [] (demoWorld 3 stalledClock)).2 = none ∧
    ∃ t, signedTemplate demoEnv "" [] (demoWorld 3 stalledClock) = some t ∧
      t.NotAfter = 24 * time.Hour ∧
      returnInstant demoEnv "" [] (demoWorld 3 stalledClock) = 24 * time.Hour + 1 ∧
      t.NotAfter < returnInstant demoEnv "" [] (demoWorld 3 stalledClock) := by
  refine ⟨fun i j hij => ?_, by decide, templateFor demoEnv DefaultIPsInit "" [] 0 0, by decide,
    by decide,
    by decide, by decide⟩
  unfold stalledClock
  split_ifs with hi hj
  · exact le_refl _
  · decide
  · omega
  · exact le_refl _

/-- C5, amended: a successful call under a non-decreasing clock signs a
template whose `NotBefore` is not after the instant of return, and whose
`NotAfter` is not before the instant of return when, and only when, the call
returns no more than 24 hours after its second clock read. -/
theorem return_in_window (env : Env) (commonName : String) (ips : List String) (w : World)
    (hmono : ∀ i j : Nat, i ≤ j → w.clock i ≤ w.clock j)
    (hok : (result env commonName ips w).2 = none) :
    ∃ t, signedTemplate env commonName ips w = some t ∧
      t.NotBefore ≤ returnInstant env commonName ips w ∧
      (returnInstant env commonName ips w ≤ t.NotAfter ↔
        time.Time.Sub (returnInstant env commonName ips w) (w.clock 1) ≤ 24 * time.Hour) := by
  obtain ⟨key, hk⟩ := keygen_ok_of_success env commonName ips w hok
  have h := signedTemplate_of_keygen_ok env commonName ips w key hk
  have hr := returnInstant_of_signed env commonName ips w _ h
  refine ⟨_, h, ?_, ?_⟩
  · rw [hr]
    exact hmono 0 2 (by decide)
  · rw [hr]
    simp only [templateFor, time.Time.Sub]
    constructor <;> intro hd <;> linarith

/-- C5 amended, at `GenerateSelfSignedCert("", [])` under the ticking clock. -/
theorem return_in_window_witness :
    (∀ i j : Nat, i ≤ j → tickingClock i ≤ tickingClock j) ∧
    (result demoEnv "" [] (demoWorld 3 tickingClock)).2 = none ∧
    ∃ t, signedTemplate demoEnv "" [] (demoWorld 3 tickingClock) = some t ∧
      t.NotBefore ≤ returnInstant demoEnv "" [] (demoWorld 3 tickingClock) ∧
      (returnInstant demoEnv "" [] (demoWorld 3 tickingClock) ≤ t.NotAfter ↔
        time.Time.Sub (returnInstant demoEnv "" [] (demoWorld 3 tickingClock)) (tickingClock 1)
          ≤ 24 * time.Hour) :=
  have hmono : ∀ i j : Nat, i ≤ j → tickingClock i ≤ tickingClock j := fun i j hij => by
    simp only [tickingClock]
    exact_mod_cast Nat.mul_le_mul_left 1000 hij
  ⟨hmono, by decide, return_in_window demoEnv "" [] (demoWorld 3 tickingClock) hmono (by decide)⟩

/-! ## Self-signing, the returned bundle and failures -/

/-- C7: a successful call makes these primitive calls and no other: one key
generation of 2048 bits, which yields the key; two clock reads; one
certificate creation with one template as both subject and issuer, the public
half of that key as the certified key and that key as the signing key, which
yields the encoded certificate.  The returned chain is the one-element list of
the encoded certificate and the returned private key is that key. -/
theorem self_signed_bundle (env : Env) (commonName : String) (ips : List String) (w : World)
    (hok : (result env commonName ips w).2 = none) :
    ∃ (key : rsa.PrivateKey) (certBytes : List Nat) (template : x509.Certificate)
      (t1 t2 : time.Time),
      (env.GenerateKey w.reader 2048).1 = Res.ok key ∧
      trace env commonName ips w =
        [Event.GenerateKey 2048 (Res.ok key), Event.Now t1, Event.Now t2,
         Event.CreateCertificate template template key.PublicKey key (Res.ok certBytes)] ∧
      (result env commonName ips w).1 =
        { Certificate := [certBytes], PrivateKey := some key } := by
  obtain ⟨key, hk⟩ := keygen_ok_of_success env commonName ips w hok
  obtain ⟨res, ht, hr, -⟩ := run_keygen_ok env commonName ips w key hk
  cases res with
  | err e => simp [hr] at hok
  | ok certBytes => exact ⟨key, certBytes, _, _, _, hk, ht, by simp [hr]⟩

/-- C7 at `GenerateSelfSignedCert("", [])`, the input of the package's test of
the private key. -/
theorem self_signed_bundle_witness :
    (result demoEnv "" [] (demoWorld 3 tickingClock)).2 = none ∧
    (result demoEnv "" [] (demoWorld 3 tickingClock)).1
      = { Certificate := [[48, 130, 3, 9]], PrivateKey := some demoKey } ∧
    ∃ (key : rsa.PrivateKey) (certBytes : List Nat) (template : x509.Certificate)
      (t1 t2 : time.Time),
      (demoEnv.GenerateKey (demoWorld 3 tickingClock).reader 2048).1 = Res.ok key ∧
      trace demoEnv "" [] (demoWorld 3 tickingClock) =
        [Event.GenerateKey 2048 (Res.ok key), Event.Now t1, Event.Now t2,
         Event.CreateCertificate template template key.PublicKey key (Res.ok certBytes)] ∧
      (result demoEnv "" [] (demoWorld 3 tickingClock)).1 =
        { Certificate := [certBytes], PrivateKey := some key } :=
  ⟨by decide, by decide,
   self_signed_bundle demoEnv "" [] (demoWorld 3 tickingClock) (by decide)⟩

/-- C8: the call returns an error exactly when one of the primitive calls it
made returned one.  The error it returns is then the error of that primitive
and the returned bundle is empty; the primitive calls made are either the one
failed key generation and nothing after it, or one successful key generation,
two clock reads and the one failed certificate creation. -/
theorem failure_is_primitive_failure (env : Env) (commonName : String) (ips : List String)
    (w : World) :
    ((result env commonName ips w).2 ≠ none ↔
      ∃ ev ∈ trace env commonName ips w, ev.failure? ≠ none) ∧
    (∀ e : Error, (result env commonName ips w).2 = some e ↔
      ∃ ev ∈ trace env commonName ips w, ev.failure? = some e) ∧
    ∀ e : Error, (result env commonName ips w).2 = some e →
      (result env commonName ips w).1 = { Certificate := [], PrivateKey := none } ∧
      ((env.GenerateKey w.reader 2048).1 = Res.err e ∧
         trace env commonName ips w = [Event.GenerateKey 2048 (Res.err e)] ∨
       ∃ (key : rsa.PrivateKey) (template : x509.Certificate) (t1 t2 : time.Time),
         (env.GenerateKey w.reader 2048).1 = Res.ok key ∧
         trace env commonName ips w =
           [Event.GenerateKey 2048 (Res.ok key), Event.Now t1, Event.Now t2,
            Event.CreateCertificate template template key.PublicKey key (Res.err e)]) := by
  cases hk : (env.GenerateKey w.reader 2048).1 with
  | err e0 =>
    obtain ⟨hr, ht, -⟩ := run_keygen_err env commonName ips w e0 hk
    refine ⟨by simp [hr, ht, Event.failure?], fun e => by simp [hr, ht, Event.failure?],
      fun e he => ?_⟩
    simp only [hr, Option.some.injEq] at he
    subst he
    exact ⟨by simp [hr], Or.inl ⟨rfl, ht⟩⟩
  | ok key =>
    obtain ⟨res, ht, hr, -⟩ := run_keygen_ok env commonName ips w key hk
    cases res with
    | err e0 =>
      refine ⟨by simp [hr, ht, Event.failure?], fun e => by simp [hr, ht, Event.failure?],
        fun e he => ?_⟩
      simp only [hr, Option.some.injEq] at he
      subst he
      exact ⟨by simp [hr], Or.inr ⟨key, _, _, _, rfl, ht⟩⟩
    | ok certBytes =>
      refine ⟨by simp [hr, ht, Event.failure?], fun e => by simp [hr, ht, Event.failure?],
        fun e he => ?_⟩
      simp [hr] at he

/-- C8 at `GenerateSelfSignedCert("", [])` with a random source from which key
generation fails: the error is that of key generation, the bundle is empty
and key generation is the only primitive call. -/
theorem failure_is_primitive_failure_witness :
    result demoEnv "" [] (demoWorld 0 tickingClock)
      = ({ Certificate := [], PrivateKey := none },
         some { msg := "rsa: entropy source failed" }) ∧
    trace demoEnv "" [] (demoWorld 0 tickingClock)
      = [Event.GenerateKey 2048 (Res.err { msg := "rsa: entropy source failed" })] ∧
    (result demoEnv "" [] (demoWorld 0 tickingClock)).1
      = { Certificate := [], PrivateKey := none } :=
  ⟨by decide, by decide,
   ((failure_is_primitive_failure demoEnv "" [] (demoWorld 0 tickingClock)).2.2
      { msg := "rsa: entropy source failed" } (by decide)).1⟩

/-- C9: a non-empty `ips` is never rejected, malformed strings included.  The
call always goes on to key generation, and once that succeeds a template is
signed; the IP list of the template has the length of `ips`, with a nil
address at each position whose string does not parse and the parsed address at
each other position; and an error the call returns is the error of a
primitive call it made. -/
theorem malformed_ips_kept (env : Env) (commonName : String) (ips : List String) (w : World)
    (hne : ips ≠ []) :
    (∃ res, (trace env commonName ips w).head? = some (Event.GenerateKey 2048 res)) ∧
    (∀ key, (env.GenerateKey w.reader 2048).1 = Res.ok key →
      (signedTemplate env commonName ips w).isSome = true) ∧
    (∀ t, signedTemplate env commonName ips w = some t →
      t.IPAddresses.length = ips.length ∧
      ∀ (i : Nat) (hi : i < ips.length),
        (env.ParseIP ips[i] = none → t.IPAddresses[i]? = some none) ∧
        (∀ addr, env.ParseIP ips[i] = some addr → t.IPAddresses[i]? = some (some addr))) ∧
    (∀ e : Error, (result env commonName ips w).2 = some e →
      ∃ ev ∈ trace env commonName ips w, ev.failure? = some e) := by
  refine ⟨?_, fun key hk => ?_, fun t h => ?_, fun e he => ?_⟩
  · cases hk : (env.GenerateKey w.reader 2048).1 with
    | err e0 =>
      exact ⟨Res.err e0, by simp [(run_keygen_err env commonName ips w e0 hk).2.1]⟩
    | ok key =>
      obtain ⟨res, ht, -, -⟩ := run_keygen_ok env commonName ips w key hk
      exact ⟨Res.ok key, by simp [ht]⟩
  · simp [signedTemplate_of_keygen_ok env commonName ips w key hk]
  · have ht := signedTemplate_eq env commonName ips w t h
    subst ht
    refine ⟨by simp [templateFor, hne], fun i hi => ⟨fun hn => ?_, fun addr ha => ?_⟩⟩
    · simp [templateFor, hne, List.getElem?_eq_getElem hi, hn]
    · simp [templateFor, hne, List.getElem?_eq_getElem hi, ha]
  · cases hk : (env.GenerateKey w.reader 2048).1 with
    | err e0 =>
      obtain ⟨hr, ht, -⟩ := run_keygen_err env commonName ips w e0 hk
      simp only [hr, Option.some.injEq] at he
      subst he
      exact ⟨Event.GenerateKey 2048 (Res.err e0), by simp [ht], rfl⟩
    | ok key =>
      obtain ⟨res, ht, hr, -⟩ := run_keygen_ok env commonName ips w key hk
      cases res with
      | err e0 =>
        simp only [hr, Option.some.injEq] at he
        subst he
        exact ⟨Event.CreateCertificate (templateFor env w.DefaultIPs commonName ips (w.clock 0)
          (w.clock 1))
          (templateFor env w.DefaultIPs commonName ips (w.clock 0) (w.clock 1)) key.PublicKey key
          (Res.err e0), by simp [ht], rfl⟩
      | ok certBytes => simp [hr] at he

/-- C9 at `GenerateSelfSignedCert("example.com", ["192.168.1.1", "bogus", "10.0.0.1"])`:
the call succeeds and the template has three addresses, the second one nil. -/
theorem malformed_ips_kept_witness :
    (result demoEnv "example.com" ["192.168.1.1", "bogus", "10.0.0.1"]
      (demoWorld 3 tickingClock)).2 = none ∧
    signedTemplate demoEnv "example.com" ["192.168.1.1", "bogus", "10.0.0.1"]
        (demoWorld 3 tickingClock)
      = some (templateFor demoEnv DefaultIPsInit "example.com" ["192.168.1.1", "bogus",
        "10.0.0.1"] 0 1000) ∧
    (templateFor demoEnv DefaultIPsInit "example.com" ["192.168.1.1", "bogus", "10.0.0.1"] 0
      1000).IPAddresses
      = [some [0, 0, 0, 0, 0, 0, 0, 0, 0, 0, 255, 255, 192, 168, 1, 1], none,
         some [0, 0, 0, 0, 0, 0, 0, 0, 0, 0, 255, 255, 10, 0, 0, 1]] ∧
    (templateFor demoEnv DefaultIPsInit "example.com" ["192.168.1.1", "bogus", "10.0.0.1"] 0
      1000).IPAddresses[1]? = some none :=
  ⟨by decide, by decide, by decide,
   (((malformed_ips_kept demoEnv "example.com" ["192.168.1.1", "bogus", "10.0.0.1"]
        (demoWorld 3 tickingClock) (by decide)).2.2.1
      (templateFor demoEnv DefaultIPsInit "example.com" ["192.168.1.1", "bogus", "10.0.0.1"] 0 1000)
      (by decide)).2 1 (by decide)).1 (by decide)⟩

end autotls
